import Mathlib

/-!
Verification of the RoosterTeeth extractor (`youtube_dl/extractor/roosterteeth.py`).

The module under verification is glue code over JSON REST responses: an
authenticator (`RoosterTeethIE._login` / `_real_initialize`), an episode
resolver (`RoosterTeethIE._real_extract`) and a series resolver with a
recursive pagination walk (`RoosterTeethSeriesIE.get_season_episodes_pages` /
`_real_extract`).  We shallowly embed the JSON data the code manipulates and
translate each decision-making fragment of the Python source into a Lean
function, then prove the specified properties about those functions.

Modelling conventions:
* JSON documents are the inductive type `RT.JValue`.
* Python `dict.get(k)` returns `None` for a missing key; we model the result
  as a `JValue` with `jnull` standing for Python `None`.  `d[k]` (which raises
  `KeyError` when absent) is modelled as an `Option JValue`.
* Python truthiness (`if x:`, `a or b`) is modelled by `RT.truthy` / `RT.pyOr`.
* Field access on a value that is not a JSON object is modelled as absence;
  Python would raise `TypeError` there, a shape no claim exercises.
* Network fetches are parameters: a resolver takes the response (or the
  failure) of each fetch it performs as an argument.
-/

namespace RT

/-- A JSON value, the data every endpoint of the extractor consumes. -/
inductive JValue where
  | jnull
  | jbool (b : Bool)
  | jnum (n : Int)
  | jstr (s : String)
  | jarr (elems : List JValue)
  | jobj (fields : List (String × JValue))
deriving Repr, BEq

namespace JValue

/-- First binding of a key in an association list (Python dict keys are
unique, so first-match lookup is exact). -/
def lookupField (k : String) : List (String × JValue) → Option JValue
  | [] => none
  | (k', v) :: rest => if k' = k then some v else lookupField k rest

/-- `d[k]` on a JSON object: `none` models Python's `KeyError` (or a
`TypeError` when the value is not an object). -/
def get : JValue → String → Option JValue
  | .jobj fields, k => lookupField k fields
  | _, _ => none

/-- `d.get(k, default)`: Python dict lookup with an explicit default. -/
def pyGetD (j : JValue) (k : String) (d : JValue) : JValue :=
  (j.get k).getD d

/-- `d.get(k)`: Python dict lookup, `jnull` standing for the `None` default. -/
def pyGet (j : JValue) (k : String) : JValue :=
  j.pyGetD k .jnull

end JValue

/-- Python truthiness of a JSON value: `None`, `False`, `0`, `""`, `[]` and
an empty dict are falsy, everything else truthy. -/
def truthy : JValue → Bool
  | .jnull => false
  | .jbool b => b
  | .jnum n => decide (n ≠ 0)
  | .jstr s => decide (s ≠ "")
  | .jarr elems => !elems.isEmpty
  | .jobj fields => !fields.isEmpty

/-- Python `a or b` on JSON values: `a` when truthy, else `b`. -/
def pyOr (a b : JValue) : JValue :=
  if truthy a then a else b


end RT

namespace RT

example : truthy (JValue.jstr "") = false := by decide

example : pyOr (JValue.jstr "") (JValue.jstr "X") = JValue.jstr "X" := rfl

example :
    (JValue.jobj [("a", JValue.jnum 1)]).pyGet "b" = JValue.jnull := rfl

/-- The string carried by a JSON string value.  Python would raise
`TypeError` when a non-string reaches `msg + ': ' + error`; no claim
exercises that shape, and the relevant theorems restrict the error fields to
strings. -/
def strVal : JValue → String
  | .jstr s => s
  | _ => ""

/-- Python `v == 'literal'` for a string literal: true exactly for the
equal string (a value of any other type never equals a `str`). -/
def isStrEq (v : JValue) (s : String) : Bool :=
  match v with
  | .jstr t => t = s
  | _ => false

/-- Whether `pattern` occurs as a contiguous substring of `s` (used to state
that a warning message contains a selected error message). -/
def strContains (s pattern : String) : Bool :=
  (List.range (s.length + 1)).any fun i =>
    (s.toList.drop i).take pattern.length == pattern.toList

/-! ### Authenticator (`RoosterTeethIE._login`, lines 57–79) -/

/-- Outcome of the OAuth password-grant POST to `auth.roosterteeth.com`
performed by `_login`.  A failure surfaces as an `ExtractorError`; when its
cause is an HTTP error we record the status code together with the parse of
the error body (`none` when the body is not valid JSON, mirroring
`_parse_json(..., fatal=False)` returning `None`). -/
inductive LoginOutcome where
  | success
  | httpError (code : Nat) (body : Option JValue)
  | netError
deriving Repr, BEq

/-- Line 75 of the source: `resp.get('extra_info') or
resp.get('error_description') or resp.get('error')`. -/
def selectLoginError (resp : JValue) : JValue :=
  pyOr (resp.pyGet "extra_info")
    (pyOr (resp.pyGet "error_description") (resp.pyGet "error"))

/-- Result of one `_login` call: the warning it reported (if any) and
whether it let an exception escape. -/
structure LoginResult where
  warning : Option String
  raised : Bool
deriving Repr, BEq

/-- `RoosterTeethIE._login`'s exception handler (lines 72–79), given the
outcome of the token POST.  `msg` starts as `Unable to login`; only when the
cause is an HTTP 401 error is the body parsed, and only a truthy selected
field is appended.  The handler ends in `report_warning` and never
re-raises. -/
def login : LoginOutcome → LoginResult
  | .success => { warning := none, raised := false }
  | .httpError code body =>
      let msg := "Unable to login"
      let msg :=
        if code = 401 then
          match body with
          | some resp =>
              if truthy resp then
                let error := selectLoginError resp
                if truthy error then msg ++ ": " ++ strVal error else msg
              else msg
          | none => msg
        else msg
      { warning := some msg, raised := false }
  | .netError => { warning := some "Unable to login", raised := false }

/-! ### Session initialization (`RoosterTeethIE._real_initialize`, lines 81–84) -/

/-- State visible to `_real_initialize`: whether the cookie jar for the
episode API base already holds an `rt_access_token` cookie, and the
configured credential (from `_get_login_info`). -/
structure SessionState where
  hasAccessTokenCookie : Bool
  cred : Option (String × String)
deriving Repr, BEq

/-- One run of `ensureSession` (`_real_initialize` followed, when needed, by
`_login`): the new state paired with the number of network requests
performed.  `authGrants` says whether the token POST, when attempted,
succeeds.  Modelled from the spec for the collaborator behaviour outside
`src`: "Session token is carried as an ambient cookie set by the auth
exchange", so a successful exchange sets the cookie; a failed one leaves the
jar unchanged (and `login` above only warns). -/
def ensureSession (st : SessionState) (authGrants : Bool) : SessionState × Nat :=
  if st.hasAccessTokenCookie then (st, 0)
  else
    match st.cred with
    | none => (st, 0)
    | some _ =>
        if authGrants then ({ st with hasAccessTokenCookie := true }, 1)
        else (st, 1)

/-! ### Episode resolver: manifest fetch and the members-only guard
(`RoosterTeethIE._real_extract`, lines 90–99) -/

/-- A failed `_download_json` call, as seen through the `ExtractorError` it
raises: an HTTP error cause with its status code and the parse of its body
(`none` when the body is not valid JSON), or a non-HTTP failure. -/
inductive FetchFailure where
  | httpError (code : Nat) (body : Option JValue)
  | netError
deriving Repr, BEq

/-- How resolving the `/videos` manifest fetch can fail. -/
inductive VideosError where
  /-- `raise_login_required(msg)`: the distinct members-only failure,
  carrying the user-facing message. -/
  | contentUnavailable (msg : String)
  /-- The bare `raise`: the original fetch error, re-raised unchanged. -/
  | fetchFailed (original : FetchFailure)
  /-- A malformed success body: Python would raise `KeyError`/`IndexError`
  extracting `data[0].attributes.url`. -/
  | missingField
deriving Repr, BEq

/-- `['data'][0]['attributes']['url']` on the `/videos` response. -/
def manifestUrl (j : JValue) : Option JValue :=
  match j.get "data" with
  | some (.jarr (first :: _)) =>
      match first.get "attributes" with
      | some a => a.get "url"
      | _ => none
  | _ => none

/-- Whether a parsed 403 body explicitly denies access: line 93 of the
source, `.get('access') is False` (the literal `False`, not merely falsy). -/
def deniesAccess : Option JValue → Bool
  | some b =>
      match b.pyGet "access" with
      | .jbool false => true
      | _ => false
  | none => false

/-- The guard of lines 91–93: the two nested `if`s (`e.cause.code == 403`,
then `...get('access') is False`).  When either test fails, control falls
through to the bare `raise` of line 96, so the two tests combine into one
condition for the members-only branch. -/
def is403Denied : FetchFailure → Bool
  | .httpError code body => code = 403 && deniesAccess body
  | .netError => false

/-- The manifest fetch of `_real_extract` (lines 90–99), given the outcome
of `GET {episodeBase}/{displayId}/videos`.  On an HTTP 403 whose body
explicitly reports `access: false`, raises the members-only error with the
FIRST-members message; every other failure re-raises the original error.
The body parse is a host-framework capability outside `src`; modelled from
the spec ("parse the response body; if it explicitly indicates access is
denied ... otherwise re-raise the original fetch error unchanged"): an
unparsable body is `none` and leads to the re-raise branch. -/
def fetchVideoManifest (displayId : String)
    (outcome : Except FetchFailure JValue) : Except VideosError JValue :=
  match outcome with
  | .ok j =>
      match manifestUrl j with
      | some u => .ok u
      | none => .error .missingField
  | .error e =>
      if is403Denied e then
        .error (.contentUnavailable
          (displayId ++ " is only available for FIRST members"))
      else
        .error (.fetchFailed e)

/-! ### Episode resolver: metadata mapping
(`RoosterTeethIE._real_extract`, lines 106–139) -/

/-- Line 109: `attributes.get('title') or attributes['display_title']`.
`none` models the `KeyError` raised when `title` is falsy and
`display_title` is absent. -/
def extractTitle (attributes : JValue) : Option JValue :=
  let t := attributes.pyGet "title"
  if truthy t then some t else attributes.get "display_title"

/-- Line 128: `attributes.get('description') or attributes.get('caption')`. -/
def extractDescription (attributes : JValue) : JValue :=
  pyOr (attributes.pyGet "description") (attributes.pyGet "caption")

/-- The fixed tag tuple of line 115: `('thumb', 'small', 'medium', 'large')`. -/
def thumbTags : List String := ["thumb", "small", "medium", "large"]

/-- One produced thumbnail dict: `id` is the tag, `url` the value found. -/
structure Thumbnail where
  id : String
  url : JValue
deriving Repr, BEq

/-- Line 114: `image.get('attributes') or {}`. -/
def imageAttrs (image : JValue) : JValue :=
  pyOr (image.pyGet "attributes") (.jobj [])

/-- The loop body of lines 113–121 for a single entry of
`included.images`: only images whose `type` equals `episode_image`
contribute; the tags are tried in the fixed order and a thumbnail is
appended exactly when the looked-up value is truthy (`if img_url:`). -/
def imageThumbnails (image : JValue) : List Thumbnail :=
  if isStrEq (image.pyGet "type") "episode_image" then
    thumbTags.filterMap fun k =>
      let imgUrl := (imageAttrs image).pyGet k
      if truthy imgUrl then some { id := k, url := imgUrl } else none
  else []

/-- The list the loop of line 113 iterates:
`episode.get('included', {}).get('images', [])`. -/
def episodeImages (episode : JValue) : List JValue :=
  match (episode.pyGetD "included" (.jobj [])).pyGetD "images" (.jarr []) with
  | .jarr images => images
  | _ => []

/-- Lines 112–121: the thumbnail list accumulated over `included.images`. -/
def extractThumbnails (episode : JValue) : List Thumbnail :=
  (episodeImages episode).flatMap imageThumbnails

/-- Modelled from the spec: `int_or_none` lives in `youtube_dl/utils.py`,
outside `src`.  Per the spec, numeric fields "are parsed permissively: a
missing or non-numeric source value yields an absent result rather than a
failure"; a JSON number, or a string spelling a decimal integer, is
numeric. -/
def digitStep (acc : Option Nat) (c : Char) : Option Nat :=
  match acc with
  | none => none
  | some n =>
      if 48 ≤ c.toNat ∧ c.toNat ≤ 57 then some (n * 10 + (c.toNat - 48))
      else none

/-- Modelled from the spec (continued): decimal-digit accumulation; any
non-digit character makes the whole parse absent. -/
def decimalNat? (cs : List Char) : Option Nat :=
  if cs.isEmpty then none else cs.foldl digitStep (some 0)

/-- Modelled from the spec: the permissive numeric parse (see
`decimalNat?`).  Absent (`jnull`) and non-numeric values yield `none`
rather than an error. -/
def int_or_none : JValue → Option Int
  | .jnum n => some n
  | .jstr s =>
      match s.toList with
      | [] => none
      | c0 :: rest =>
          if c0 = '-' then (decimalNat? rest).map fun n => -(n : Int)
          else (decimalNat? (c0 :: rest)).map fun n => (n : Int)
  | _ => none

/-- The fields of the returned info dict (lines 124–139) that the
specification constrains.  `formats` (derived by the host's HLS machinery)
is out of scope; the remaining pass-through fields are carried verbatim as
JSON values. -/
structure EpisodeRecord where
  id : JValue
  display_id : String
  title : JValue
  description : JValue
  thumbnails : List Thumbnail
  series : JValue
  season_number : Option Int
  season_id : JValue
  episode : JValue
  episode_number : Option Int
  episode_id : JValue
  channel_id : JValue
  duration : Option Int
deriving Repr, BEq

/-- Lines 106–139 given the (already fetched) episode metadata object
`episode = response['data'][0]`: field extraction into the returned dict.
`none` models an uncaught `KeyError` (missing `attributes`, missing `id`,
or the title fallback of `extractTitle` failing).  `compat_str` /
`str_or_none` conversions only re-spell the carried value and are dropped;
no claim observes them. -/
def buildRecord (display_id : String) (episode : JValue) :
    Option EpisodeRecord :=
  match episode.get "attributes" with
  | none => none
  | some attributes =>
      match extractTitle attributes with
      | none => none
      | some title =>
          match episode.get "id" with
          | none => none
          | some vid =>
              some {
                id := vid
                display_id := display_id
                title := title
                description := extractDescription attributes
                thumbnails := extractThumbnails episode
                series := attributes.pyGet "show_title"
                season_number := int_or_none (attributes.pyGet "season_number")
                season_id := attributes.pyGet "season_id"
                episode := title
                episode_number := int_or_none (attributes.pyGet "number")
                episode_id := episode.pyGet "uuid"
                channel_id := attributes.pyGet "channel_id"
                duration := int_or_none (attributes.pyGet "length") }

/-- Spec-side rendering of the thumbnail rule, following §4.2 step 5 of the
spec: thumbnails are built only from entries in `included.images` whose
`type` equals `episode_image`, iterating the fixed tag list and including
only tags present with a non-empty URL value, each becoming one Thumbnail
with `id` equal to the tag name. -/
def specThumbnails (episode : JValue) : List Thumbnail :=
  (episodeImages episode).flatMap fun image =>
    if isStrEq (image.pyGet "type") "episode_image" then
      thumbTags.filterMap fun k =>
        match (imageAttrs image).get k with
        | some (.jstr s) =>
            if s = "" then none else some { id := k, url := .jstr s }
        | _ => none
    else []

/-- URL values are strings: every tag of the fixed list that an image's
attribute dict binds is bound to a string.  (The code's truthiness test and
the spec's "non-empty URL value" coincide exactly on strings.) -/
def stringUrls (image : JValue) : Bool :=
  thumbTags.all fun k =>
    match (imageAttrs image).get k with
    | some (.jstr _) => true
    | some _ => false
    | none => true

/-- The data `buildRecord` cannot do without: the `attributes` object, a
title (after the `display_title` fallback) and the episode `id`.  Numeric
and other optional fields do not appear. -/
def requiredShape (episode : JValue) : Bool :=
  match episode.get "attributes" with
  | none => false
  | some attributes =>
      match extractTitle attributes with
      | none => false
      | some _ => (episode.get "id").isSome

/-! ### Series resolver and pagination
(`RoosterTeethSeriesIE`, lines 214–263) -/

/-- `RoosterTeethSeriesIE.domain`. -/
def domain : String := "https://roosterteeth.com"

/-- One parsed page of a season's episode listing as returned by
`GET {episodes_link}?page=N&per_page=M`: its declared page number, the
declared page count, and `canonical_links.self` of each entry of `data`,
in response order. -/
structure SeasonPage where
  page : Nat
  total_pages : Nat
  data : List String
deriving Repr, BEq

/-- How the pagination walk can fail. -/
inductive WalkError where
  /-- `assert page == se_page['page']` (line 225) failed: the
  ConsistencyError, carrying requested and declared page numbers. -/
  | consistencyError (requested declared : Nat)
  /-- Recursion depth exhausted: Lean totality fuel, standing for the
  Python recursion never returning. -/
  | outOfFuel
deriving Repr, BEq

/-- `RoosterTeethSeriesIE.get_season_episodes_pages` (lines 214–239).
`backend n` is the parsed response of the page-`n` request (the
`episode_link`/`season_slug` arguments only shape the request URL and the
download note, so the season is represented by its `backend`).  Entries of
the current page are collected as `domain ++ link`, and the walk recurses
on `page + 1` exactly when `se_page['page'] < se_page['total_pages']`.
`fuel` bounds the recursion depth so the model is total. -/
def get_season_episodes_pages (backend : Nat → SeasonPage) :
    Nat → Nat → Except WalkError (List String)
  | 0, _ => .error .outOfFuel
  | fuel + 1, page =>
      let sePage := backend page
      if page = sePage.page then
        let entries := sePage.data.map fun link => domain ++ link
        if sePage.page < sePage.total_pages then
          match get_season_episodes_pages backend fuel (page + 1) with
          | .ok rest => .ok (entries ++ rest)
          | .error e => .error e
        else .ok entries
      else .error (.consistencyError page sePage.page)

/-- The same recursion as `get_season_episodes_pages`, recording the page
number of every `_download_json` request it performs, in request order. -/
def walkTrace (backend : Nat → SeasonPage) : Nat → Nat → List Nat
  | 0, _ => []
  | fuel + 1, page =>
      let sePage := backend page
      if page = sePage.page then
        if sePage.page < sePage.total_pages then
          page :: walkTrace backend fuel (page + 1)
        else [page]
      else [page]

/-- A backend that echoes every requested page number (the response's
`page` field equals the request's `page` parameter). -/
def EchoBackend (backend : Nat → SeasonPage) : Prop :=
  ∀ n, (backend n).page = n

/-- A stable backend: echoes the requested page number and reports the
same `total_pages` on every page. -/
def StableBackend (backend : Nat → SeasonPage) (total : Nat) : Prop :=
  ∀ n, (backend n).page = n ∧ (backend n).total_pages = total

/-- One season as the series resolver sees it after parsing the seasons
listing (lines 258–263): its slug and its episode-listing endpoint. -/
structure Season where
  slug : String
  backend : Nat → SeasonPage

/-- The accumulation loop of `_real_extract` (lines 258–263): seasons in
listing order, each walked from page 1; an exception from any walk aborts
the whole resolution. -/
def seriesEntries (seasons : List Season) (fuel : Nat) :
    Except WalkError (List String) :=
  match seasons with
  | [] => .ok []
  | s :: rest =>
      match get_season_episodes_pages s.backend fuel 1 with
      | .error e => .error e
      | .ok es =>
          match seriesEntries rest fuel with
          | .error e => .error e
          | .ok more => .ok (es ++ more)

/-- The playlist record returned by `RoosterTeethSeriesIE._real_extract`
(lines 270–275): the show slug, the show title and the flat ordered entry
list (each entry later dispatched to the episode resolver by the host). -/
structure SeriesRecord where
  id : String
  title : JValue
  entries : List String
deriving Repr, BEq

/-- `RoosterTeethSeriesIE._real_extract` (lines 241–275) after the show
and seasons fetches have been parsed into `title` and `seasons`. -/
def resolveSeries (show_id : String) (title : JValue)
    (seasons : List Season) (fuel : Nat) : Except WalkError SeriesRecord :=
  match seriesEntries seasons fuel with
  | .error e => .error e
  | .ok entries => .ok { id := show_id, title := title, entries := entries }

/-- The per-season pagination state machine of the spec. -/
inductive PageState where
  | fetching (n : Nat)
  | done (lastFetched : Nat)
deriving Repr, BEq

/-- The transition the code takes after fetching page `n` of a listing
that declares `total` pages (line 230: recurse on `n + 1` exactly when
`n < total`, since a stable backend echoes `page = n`). -/
def walkStep (total n : Nat) : PageState :=
  if n < total then .fetching (n + 1) else .done n

/-! ## Pagination lemmas -/

/-- Against a stable backend, the walk from any in-range page succeeds and
returns exactly the concatenation of the remaining pages' entries, each
entry prefixed with the site domain, in page-then-within-page order. -/
theorem walk_stable_eq {backend : Nat → SeasonPage} {total : Nat}
    (h : StableBackend backend total) :
    ∀ fuel page, page ≤ total → total - page < fuel →
      get_season_episodes_pages backend fuel page =
        .ok ((List.range' page (total - page + 1)).flatMap
          fun p => (backend p).data.map fun link => domain ++ link) := by
  intro fuel
  induction fuel with
  | zero => intro page _ hf; omega
  | succ fuel ih =>
      intro page hle _
      have hpage := (h page).1
      have htot := (h page).2
      by_cases hlt : page < total
      · have h1 : page + 1 ≤ total := hlt
        have h2 : total - (page + 1) < fuel := by omega
        have hrec := ih (page + 1) h1 h2
        have hrange : List.range' page (total - page + 1) =
            page :: List.range' (page + 1) (total - (page + 1) + 1) := by
          have : total - page + 1 = (total - (page + 1) + 1) + 1 := by omega
          rw [this, List.range'_succ]
        simp only [get_season_episodes_pages, hpage, htot, if_pos rfl,
          if_pos hlt, hrec, hrange, List.flatMap_cons, if_true]
      · have hpt : page = total := by omega
        have hrange : total - page + 1 = 1 := by omega
        simp only [get_season_episodes_pages, hpage, htot, if_pos rfl,
          if_neg hlt, hrange, List.range'_one, List.flatMap_cons,
          List.flatMap_nil, List.append_nil, if_true]

/-- Against a stable backend, the pages requested from an in-range starting
page are exactly the interval from it up to `total`. -/
theorem walkTrace_stable_eq {backend : Nat → SeasonPage} {total : Nat}
    (h : StableBackend backend total) :
    ∀ fuel page, page ≤ total → total - page < fuel →
      walkTrace backend fuel page = List.range' page (total - page + 1) := by
  intro fuel
  induction fuel with
  | zero => intro page _ hf; omega
  | succ fuel ih =>
      intro page hle _
      have hpage := (h page).1
      have htot := (h page).2
      by_cases hlt : page < total
      · have hrec := ih (page + 1) (by omega) (by omega)
        have hrange : List.range' page (total - page + 1) =
            page :: List.range' (page + 1) (total - (page + 1) + 1) := by
          have : total - page + 1 = (total - (page + 1) + 1) + 1 := by omega
          rw [this, List.range'_succ]
        simp only [walkTrace, hpage, htot, if_pos rfl, if_pos hlt, hrec,
          hrange, if_true]
      · have hrange : total - page + 1 = 1 := by omega
        simp only [walkTrace, hpage, htot, if_pos rfl, if_neg hlt, hrange,
          List.range'_one, if_true]

/-- Against a stable backend, a walk started past the declared page count
stops after that single out-of-range request. -/
theorem walk_stable_overshoot {backend : Nat → SeasonPage} {total : Nat}
    (h : StableBackend backend total) (fuel page : Nat)
    (hp : total < page) (hf : 0 < fuel) :
    get_season_episodes_pages backend fuel page =
        .ok ((backend page).data.map fun link => domain ++ link) ∧
      walkTrace backend fuel page = [page] := by
  obtain ⟨fuel, rfl⟩ : ∃ f, fuel = f + 1 := ⟨fuel - 1, by omega⟩
  have hpage := (h page).1
  have htot := (h page).2
  have hlt : ¬ (page < total) := by omega
  constructor
  · simp only [get_season_episodes_pages, hpage, htot, if_pos rfl, if_neg hlt,
      if_true]
  · simp only [walkTrace, hpage, htot, if_pos rfl, if_neg hlt, if_true]

/-- Against stable backends with at least one page each, the series
accumulation succeeds and returns the season-by-season, page-by-page
concatenation of domain-prefixed entries. -/
theorem seriesEntries_stable_eq (tp : Season → Nat) :
    ∀ (seasons : List Season) (fuel : Nat),
      (∀ s ∈ seasons, StableBackend s.backend (tp s)) →
      (∀ s ∈ seasons, 1 ≤ tp s) →
      (∀ s ∈ seasons, tp s < fuel) →
      seriesEntries seasons fuel =
        .ok (seasons.flatMap fun s =>
          (List.range' 1 (tp s)).flatMap fun p =>
            (s.backend p).data.map fun link => domain ++ link) := by
  intro seasons
  induction seasons with
  | nil => intro fuel _ _ _; rfl
  | cons s rest ih =>
      intro fuel hstable hpos hfuel
      have hw := walk_stable_eq (hstable s (by simp)) fuel 1
        (hpos s (by simp)) (by have := hfuel s (by simp); omega)
      have hrange : tp s - 1 + 1 = tp s := by
        have := hpos s (by simp); omega
      rw [hrange] at hw
      have hrest := ih fuel (fun x hx => hstable x (by simp [hx]))
        (fun x hx => hpos x (by simp [hx])) (fun x hx => hfuel x (by simp [hx]))
      simp only [seriesEntries, hw, hrest, List.flatMap_cons]

/-- Against a backend that echoes requested page numbers, the walk never
fails with the consistency assertion, whatever the fuel and start page. -/
theorem walk_echo_no_consistency {backend : Nat → SeasonPage}
    (h : EchoBackend backend) :
    ∀ fuel page r d, get_season_episodes_pages backend fuel page ≠
      .error (.consistencyError r d) := by
  intro fuel
  induction fuel with
  | zero => intro page r d; simp [get_season_episodes_pages]
  | succ fuel ih =>
      intro page r d
      have hpage := h page
      simp only [get_season_episodes_pages, hpage, if_pos rfl]
      by_cases hlt : page < (backend page).total_pages
      · simp only [if_pos hlt]
        cases hrec : get_season_episodes_pages backend fuel (page + 1) with
        | ok rest => simp
        | error e =>
            have := ih (page + 1) r d
            rw [hrec] at this
            simp only [if_true, Except.error.injEq] at *
            intro he
            exact this (by rw [he])
      · simp [if_neg hlt]


/-! ## Demonstration fixtures (used by witnesses and counterexamples) -/

/-- A stable three-page demo listing with literal per-page entries. -/
def pagedBackend3 : Nat → SeasonPage := fun n =>
  { page := n, total_pages := 3,
    data :=
      match n with
      | 1 => ["/a1"]
      | 2 => ["/a2", "/b2"]
      | 3 => ["/a3"]
      | _ => [] }

/-- A stable listing that declares zero total pages. -/
def zeroPageBackend : Nat → SeasonPage := fun n =>
  { page := n, total_pages := 0, data := [] }

/-- A backend that mis-echoes every requested page number. -/
def skewBackend : Nat → SeasonPage := fun n =>
  { page := n + 1, total_pages := 5, data := [] }

/-- A demo season over `pagedBackend3`. -/
def pagedSeason3 : Season := { slug := "s1", backend := pagedBackend3 }

/-! ## Claim theorems -/

/-- C1, counterexample: at display id `ep` and an HTTP 403 whose parsed
body reports access false, the code fails with the message `ep is only
available for FIRST members`, not the claim's quoted message `ep is only
available for members`. -/
theorem c1_members_message_counterexample :
    fetchVideoManifest "ep"
        (.error (.httpError 403 (some (.jobj [("access", .jbool false)])))) =
      .error (.contentUnavailable "ep is only available for FIRST members") ∧
    "ep is only available for FIRST members" ≠
      "ep is only available for members" :=
  ⟨rfl, by decide⟩

/-- C1 as amended: for every display id, an HTTP-403 manifest-fetch failure
fails with the members-only error carrying the message `displayId is only
available for FIRST members` exactly when the parsed body explicitly
reports access false; in every other 403 case (body unparsable, access key
missing, access true) the original fetch error is re-raised unchanged, and
every non-403 failure propagates as the original generic fetch error. -/
theorem c1_members_only_guard (displayId : String) (body : Option JValue) :
    (deniesAccess body = true →
      fetchVideoManifest displayId (.error (.httpError 403 body)) =
        .error (.contentUnavailable
          (displayId ++ " is only available for FIRST members"))) ∧
    (deniesAccess body = false →
      fetchVideoManifest displayId (.error (.httpError 403 body)) =
        .error (.fetchFailed (.httpError 403 body))) ∧
    deniesAccess none = false ∧
    (∀ b : JValue, b.get "access" = none → deniesAccess (some b) = false) ∧
    (∀ b : JValue, b.pyGet "access" = .jbool true →
      deniesAccess (some b) = false) ∧
    (∀ code, code ≠ 403 →
      fetchVideoManifest displayId (.error (.httpError code body)) =
        .error (.fetchFailed (.httpError code body))) ∧
    fetchVideoManifest displayId (.error .netError) =
      .error (.fetchFailed .netError) := by
  refine ⟨?_, ?_, rfl, ?_, ?_, ?_, rfl⟩
  · intro h
    simp [fetchVideoManifest, is403Denied, h]
  · intro h
    simp [fetchVideoManifest, is403Denied, h]
  · intro b hb
    simp [deniesAccess, JValue.pyGet, JValue.pyGetD, hb]
  · intro b hb
    simp [deniesAccess, hb]
  · intro code hne
    simp [fetchVideoManifest, is403Denied, hne]

/-- C1 witness: the amended guard evaluated at display id `ep` on a denied
403, an unparsable 403 body, and a 500. -/
theorem c1_members_only_guard_witness :
    fetchVideoManifest "ep"
        (.error (.httpError 403 (some (.jobj [("access", .jbool false)])))) =
      .error (.contentUnavailable "ep is only available for FIRST members") ∧
    fetchVideoManifest "ep" (.error (.httpError 403 none)) =
      .error (.fetchFailed (.httpError 403 none)) ∧
    fetchVideoManifest "ep" (.error (.httpError 500 none)) =
      .error (.fetchFailed (.httpError 500 none)) :=
  ⟨(c1_members_only_guard "ep"
      (some (.jobj [("access", .jbool false)]))).1 rfl,
   (c1_members_only_guard "ep" none).2.1 rfl,
   (c1_members_only_guard "ep" none).2.2.2.2.2.1 500 (by decide)⟩

/-- C2: against stable backends (every response echoes the requested page
and reports a fixed positive `total_pages`), each season's walk requests
exactly pages 1..total_pages with no gaps or duplicates, and the series
resolver returns the concatenation of every page's entries — each a
domain-prefixed canonical link — ordered by season listing order, then page
order, then within-page order, with total count the sum of per-page
counts. -/
theorem c2_series_pagination (show_id : String) (title : JValue)
    (seasons : List Season) (tp : Season → Nat) (fuel : Nat)
    (hstable : ∀ s ∈ seasons, StableBackend s.backend (tp s))
    (hpos : ∀ s ∈ seasons, 1 ≤ tp s)
    (hfuel : ∀ s ∈ seasons, tp s < fuel) :
    (∀ s ∈ seasons,
        walkTrace s.backend fuel 1 = List.range' 1 (tp s) ∧
        (walkTrace s.backend fuel 1).Nodup ∧
        ∀ p, p ∈ walkTrace s.backend fuel 1 ↔ 1 ≤ p ∧ p ≤ tp s) ∧
    resolveSeries show_id title seasons fuel =
      .ok { id := show_id, title := title,
            entries := seasons.flatMap fun s =>
              (List.range' 1 (tp s)).flatMap fun p =>
                (s.backend p).data.map fun link => domain ++ link } ∧
    (seasons.flatMap fun s =>
        (List.range' 1 (tp s)).flatMap fun p =>
          (s.backend p).data.map fun link => domain ++ link).length =
      (seasons.map fun s =>
        ((List.range' 1 (tp s)).map fun p => (s.backend p).data.length).sum).sum := by
  refine ⟨?_, ?_, ?_⟩
  · intro s hs
    have ht := walkTrace_stable_eq (hstable s hs) fuel 1 (hpos s hs)
      (by have := hfuel s hs; omega)
    have hr : tp s - 1 + 1 = tp s := by have := hpos s hs; omega
    rw [hr] at ht
    refine ⟨ht, ?_, ?_⟩
    · rw [ht]; exact List.nodup_range' _ _
    · intro p; rw [ht, List.mem_range'_1]; omega
  · have h := seriesEntries_stable_eq tp seasons fuel hstable hpos hfuel
    simp [resolveSeries, h]
  · simp only [List.flatMap_def, List.length_flatten, List.map_map,
      Function.comp_def, List.length_map]

/-- C2 witness: one season over the three-page demo backend; the resolver
returns the six domain-prefixed entries in season, page, in-page order, and
pages 1, 2, 3 are requested exactly once each. -/
theorem c2_series_pagination_witness :
    resolveSeries "demo-show" (JValue.jstr "Demo") [pagedSeason3] 4 =
      .ok { id := "demo-show", title := JValue.jstr "Demo",
            entries := ["https://roosterteeth.com/a1",
                        "https://roosterteeth.com/a2",
                        "https://roosterteeth.com/b2",
                        "https://roosterteeth.com/a3"] } ∧
    walkTrace pagedSeason3.backend 4 1 = [1, 2, 3] := by
  have h := c2_series_pagination "demo-show" (JValue.jstr "Demo")
    [pagedSeason3] (fun _ => 3) 4
    (by intro s hs; rw [List.mem_singleton] at hs; subst hs
        exact fun n => ⟨rfl, rfl⟩)
    (by intro s hs; show (1 : Nat) ≤ 3; decide)
    (by intro s hs; show (3 : Nat) < 4; decide)
  refine ⟨?_, ?_⟩
  · rw [h.2.1]; rfl
  · rw [(h.1 pagedSeason3 (List.mem_singleton_self _)).1]; rfl


/-- C3, counterexample: with a stable backend declaring zero total pages
and the real starting page 1 — both within the claim's quantification over
starting pages and total-pages values — the walk fetches page 1 and halts:
Done is reached with fetched page 1 while total_pages is 0, so Done is not
reached exactly when the fetched page equals total_pages. -/
theorem c3_done_counterexample :
    walkStep 0 1 = PageState.done 1 ∧ (1 : Nat) ≠ 0 ∧
    walkTrace zeroPageBackend 5 1 = [1] ∧
    get_season_episodes_pages zeroPageBackend 5 1 = .ok [] :=
  ⟨rfl, by decide, rfl, rfl⟩

/-- C3 as amended: from Fetching(n) the walk steps to Fetching(n+1) exactly
when n < total_pages and reaches Done exactly when the fetched page number
is at least total_pages; in particular, for every starting page n with
1 ≤ n ≤ total_pages and a total_pages fixed across the walk, the walk
terminates after fetching pages n..total_pages, the last fetched page being
total_pages. -/
theorem c3_pagination_state_machine {backend : Nat → SeasonPage}
    {total : Nat} (h : StableBackend backend total) (n fuel : Nat)
    (h1 : 1 ≤ n) :
    (walkStep total n = PageState.fetching (n + 1) ↔ n < total) ∧
    (∀ m, walkStep total n = PageState.done m ↔ total ≤ n ∧ m = n) ∧
    (0 < fuel →
      walkTrace backend fuel n =
        n :: (match walkStep total n with
              | .fetching k => walkTrace backend (fuel - 1) k
              | .done _ => [])) ∧
    (n ≤ total → total - n < fuel →
      walkTrace backend fuel n = List.range' n (total - n + 1) ∧
      (walkTrace backend fuel n).getLast? = some total) := by
  have hpage := (h n).1
  have htot := (h n).2
  refine ⟨?_, ?_, ?_, ?_⟩
  · by_cases hlt : n < total <;> simp [walkStep, hlt]
  · intro m
    by_cases hlt : n < total <;> simp [walkStep, hlt] <;> omega
  · intro hf
    obtain ⟨f, rfl⟩ : ∃ f, fuel = f + 1 := ⟨fuel - 1, by omega⟩
    by_cases hlt : n < total
    · simp only [walkTrace, hpage, htot, if_pos rfl, if_pos hlt, if_true,
        walkStep, Nat.add_sub_cancel]
    · simp only [walkTrace, hpage, htot, if_pos rfl, if_neg hlt, if_true,
        walkStep]
  · intro hle hf
    have ht := walkTrace_stable_eq h fuel n hle hf
    refine ⟨ht, ?_⟩
    rw [ht, List.range'_concat, List.getLast?_concat]
    congr 1
    omega

/-- C3 witness: the amended state machine evaluated over the three-page
demo backend from starting page 1. -/
theorem c3_pagination_state_machine_witness :
    (walkStep 3 1 = PageState.fetching 2 ↔ (1 : Nat) < 3) ∧
    walkTrace pagedBackend3 4 1 = [1, 2, 3] ∧
    (walkTrace pagedBackend3 4 1).getLast? = some 3 := by
  have h := @c3_pagination_state_machine pagedBackend3 3
    (fun n => ⟨rfl, rfl⟩) 1 4 (by decide)
  have h4 := h.2.2.2 (by decide) (by decide)
  exact ⟨h.1, by rw [h4.1]; rfl, h4.2⟩

/-- C4: at every step the walk asserts that the declared page number equals
the requested one; with an echoing backend the assertion never fires, and
when they disagree the walk fails with the ConsistencyError carrying both
numbers — returning no entries, not retrying — and the failure propagates
uncaught through the series accumulation. -/
theorem c4_page_consistency_assertion {backend : Nat → SeasonPage} :
    (EchoBackend backend →
      ∀ fuel page r d, get_season_episodes_pages backend fuel page ≠
        .error (.consistencyError r d)) ∧
    (∀ fuel page, 0 < fuel → (backend page).page ≠ page →
      get_season_episodes_pages backend fuel page =
        .error (.consistencyError page (backend page).page)) ∧
    (∀ (s : Season) (rest : List Season) (fuel r d : Nat),
      get_season_episodes_pages s.backend fuel 1 =
          .error (.consistencyError r d) →
      seriesEntries (s :: rest) fuel = .error (.consistencyError r d)) := by
  refine ⟨fun he => walk_echo_no_consistency he, ?_, ?_⟩
  · intro fuel page hf hne
    obtain ⟨f, rfl⟩ : ∃ f, fuel = f + 1 := ⟨fuel - 1, by omega⟩
    simp only [get_season_episodes_pages,
      if_neg (fun hh : page = (backend page).page => hne hh.symm)]
  · intro s rest fuel r d hw
    simp only [seriesEntries, hw]

/-- C4 witness: the echoing demo backend never trips the assertion at fuel
4, page 1; the mis-echoing backend fails immediately with the
ConsistencyError for requested page 1 and declared page 2, also through the
series accumulation. -/
theorem c4_page_consistency_assertion_witness :
    get_season_episodes_pages pagedBackend3 4 1 ≠
        .error (.consistencyError 1 1) ∧
    get_season_episodes_pages skewBackend 3 1 =
      .error (.consistencyError 1 2) ∧
    seriesEntries [{ slug := "bad", backend := skewBackend }] 3 =
      .error (.consistencyError 1 2) := by
  have h := @c4_page_consistency_assertion pagedBackend3
  have h2 := @c4_page_consistency_assertion skewBackend
  refine ⟨h.1 (fun n => rfl) 4 1 1 1, h2.2.1 3 1 (by decide) (by decide), ?_⟩
  exact h2.2.2 { slug := "bad", backend := skewBackend } [] 3 1 2
    (h2.2.1 3 1 (by decide) (by decide))


/-- C5, counterexample: an exchange failure that is an HTTP 500 whose body
carries a selectable `error` field `bad` produces the bare warning, which
does not contain the selected message — the body is parsed only for 401
failures, not for every failed exchange as claimed. -/
theorem c5_non_401_counterexample :
    (login (.httpError 500 (some (.jobj [("error", .jstr "bad")])))).warning =
      some "Unable to login" ∧
    selectLoginError (.jobj [("error", .jstr "bad")]) = .jstr "bad" ∧
    strContains "Unable to login" "bad" = false :=
  ⟨rfl, rfl, by decide⟩

/-- C5 as amended: only when the failed exchange is an HTTP 401 error with
a parsable, truthy JSON body does the Authenticator parse the body and
select the message by checking extra_info, then error_description, then
error, in that priority order (first truthy field), warning `Unable to
login: message`; every other failure — non-401 HTTP error, unparsable or
falsy body, no truthy field, non-HTTP failure — warns the generic `Unable
to login` alone; the handler never raises, so extraction proceeds
unauthenticated. -/
theorem c5_login_warning (code : Nat) (body : Option JValue) :
    (∀ o, (login o).raised = false) ∧
    (login .success).warning = none ∧
    (code ≠ 401 →
      (login (.httpError code body)).warning = some "Unable to login") ∧
    (login (.httpError 401 none)).warning = some "Unable to login" ∧
    (∀ resp, truthy resp = false →
      (login (.httpError 401 (some resp))).warning =
        some "Unable to login") ∧
    (∀ resp, truthy resp = true → truthy (selectLoginError resp) = false →
      (login (.httpError 401 (some resp))).warning =
        some "Unable to login") ∧
    (∀ resp s, truthy resp = true → selectLoginError resp = .jstr s →
      s ≠ "" →
      (login (.httpError 401 (some resp))).warning =
        some ("Unable to login: " ++ s)) ∧
    (∀ resp, truthy (resp.pyGet "extra_info") = true →
      selectLoginError resp = resp.pyGet "extra_info") ∧
    (∀ resp, truthy (resp.pyGet "extra_info") = false →
      truthy (resp.pyGet "error_description") = true →
      selectLoginError resp = resp.pyGet "error_description") ∧
    (∀ resp, truthy (resp.pyGet "extra_info") = false →
      truthy (resp.pyGet "error_description") = false →
      selectLoginError resp = resp.pyGet "error") ∧
    (login .netError).warning = some "Unable to login" := by
  refine ⟨?_, rfl, ?_, rfl, ?_, ?_, ?_, ?_, ?_, ?_, rfl⟩
  · intro o
    cases o <;> rfl
  · intro hne
    simp [login, hne]
  · intro resp hfalsy
    simp [login, hfalsy]
  · intro resp htrue hsel
    simp [login, htrue, hsel]
  · intro resp s htrue hsel hs
    have hst : truthy (JValue.jstr s) = true := by simp [truthy, hs]
    simp [login, htrue, hsel, hst, strVal]
  · intro resp hx
    simp [selectLoginError, pyOr, hx]
  · intro resp hx hd
    simp [selectLoginError, pyOr, hx, hd]
  · intro resp hx hd
    simp [selectLoginError, pyOr, hx, hd]

/-- C5 witness: the amended behaviour evaluated at a 401 with a body whose
error_description is selected, a falsy-body 401, a 500, and a non-HTTP
failure. -/
theorem c5_login_warning_witness :
    (login (.httpError 401
        (some (.jobj [("error_description", .jstr "Invalid creds"),
                      ("error", .jstr "x")])))).warning =
      some "Unable to login: Invalid creds" ∧
    (login (.httpError 500
        (some (.jobj [("error", .jstr "x")])))).warning =
      some "Unable to login" ∧
    (login (.httpError 401 (some (.jobj [])))).warning =
      some "Unable to login" ∧
    (login .netError).raised = false := by
  have h := c5_login_warning 500 (some (.jobj [("error", .jstr "x")]))
  refine ⟨?_, ?_, ?_, ?_⟩
  · exact h.2.2.2.2.2.2.1
      (.jobj [("error_description", .jstr "Invalid creds"),
              ("error", .jstr "x")])
      "Invalid creds" (by decide) rfl (by decide)
  · exact h.2.2.1 (by decide)
  · exact h.2.2.2.2.1 (.jobj []) (by decide)
  · exact h.1 .netError


/-- C6: `ensureSession` performs zero network calls and leaves the state
unchanged whenever the session token cookie is already present, and
likewise whenever no credential is configured; after a successful login the
exchange has set the cookie, so a second call performs zero additional
network calls (idempotence per process run). -/
theorem c6_ensure_session_idempotent (st : SessionState) (g g2 : Bool) :
    (st.hasAccessTokenCookie = true → ensureSession st g = (st, 0)) ∧
    (st.cred = none → ensureSession st g = (st, 0)) ∧
    (st.hasAccessTokenCookie = false → st.cred ≠ none → g = true →
      (ensureSession st g).2 = 1 ∧
      ensureSession (ensureSession st g).1 g2 =
        ((ensureSession st g).1, 0)) := by
  refine ⟨?_, ?_, ?_⟩
  · intro hc
    simp [ensureSession, hc]
  · intro hcred
    by_cases hc : st.hasAccessTokenCookie <;> simp [ensureSession, hc, hcred]
  · intro hc hcred hg
    subst hg
    obtain ⟨u, p, hcp⟩ : ∃ u p, st.cred = some (u, p) := by
      cases hcp : st.cred with
      | none => exact absurd hcp hcred
      | some c => obtain ⟨u, p⟩ := c; exact ⟨u, p, rfl⟩
    simp [ensureSession, hc, hcp]

/-- C6 witness: a present cookie, an absent credential, and the
second-call-after-login case, each evaluated on a concrete state. -/
theorem c6_ensure_session_idempotent_witness :
    ensureSession { hasAccessTokenCookie := true, cred := none } false =
      ({ hasAccessTokenCookie := true, cred := none }, 0) ∧
    ensureSession { hasAccessTokenCookie := false, cred := none } true =
      ({ hasAccessTokenCookie := false, cred := none }, 0) ∧
    ensureSession
        (ensureSession
          { hasAccessTokenCookie := false, cred := some ("u", "p") } true).1
        false =
      ((ensureSession
          { hasAccessTokenCookie := false, cred := some ("u", "p") } true).1,
        0) :=
  ⟨(c6_ensure_session_idempotent
      { hasAccessTokenCookie := true, cred := none } false false).1 rfl,
   (c6_ensure_session_idempotent
      { hasAccessTokenCookie := false, cred := none } true false).2.1 rfl,
   ((c6_ensure_session_idempotent
      { hasAccessTokenCookie := false, cred := some ("u", "p") } true
      false).2.2 rfl (fun h => Option.noConfusion h) rfl).2⟩

/-- Helper for C7: on an image whose bound tag values are all strings, the
code's per-image loop agrees with the spec's per-image rule. -/
theorem imageThumbnails_spec (image : JValue)
    (hwf : stringUrls image = true) :
    imageThumbnails image =
      (if isStrEq (image.pyGet "type") "episode_image" then
        thumbTags.filterMap fun k =>
          match (imageAttrs image).get k with
          | some (.jstr s) =>
              if s = "" then none else some { id := k, url := .jstr s }
          | _ => none
      else []) := by
  rw [stringUrls, List.all_eq_true] at hwf
  unfold imageThumbnails
  by_cases ht : isStrEq (image.pyGet "type") "episode_image"
  · rw [if_pos ht, if_pos ht]
    apply List.filterMap_congr
    intro k hk
    have hall := hwf k hk
    cases hg : (imageAttrs image).get k with
    | none => simp [JValue.pyGet, JValue.pyGetD, hg, truthy]
    | some v =>
        rw [hg] at hall
        cases v with
        | jstr s =>
            by_cases hs : s = "" <;>
              simp [JValue.pyGet, JValue.pyGetD, hg, truthy, hs]
        | jnull => simp at hall
        | jbool b => simp at hall
        | jnum n => simp at hall
        | jarr elems => simp at hall
        | jobj fields => simp at hall
  · rw [if_neg ht, if_neg ht]

/-- C7: thumbnails are built only from entries of `included.images` whose
type equals `episode_image`; for each such image the fixed tag list thumb,
small, medium, large is iterated in that order and a thumbnail with id the
tag and url the value is emitted exactly for the tags present with a
non-empty URL value; images of any other type contribute nothing.  Stated
as agreement with the spec-side rule `specThumbnails` under the assumption
that bound tag values are strings. -/
theorem c7_thumbnail_extraction (episode : JValue)
    (hwf : ∀ image ∈ episodeImages episode, stringUrls image = true) :
    extractThumbnails episode = specThumbnails episode ∧
    ∀ image, isStrEq (image.pyGet "type") "episode_image" = false →
      imageThumbnails image = [] := by
  constructor
  · unfold extractThumbnails specThumbnails
    rw [List.flatMap_def, List.flatMap_def]
    congr 1
    apply List.map_congr_left
    intro image him
    exact imageThumbnails_spec image (hwf image him)
  · intro image ht
    unfold imageThumbnails
    rw [if_neg (by rw [ht]; exact Bool.false_ne_true)]

/-- The spec's own thumbnail test vector: one `episode_image` with tag
`thumb` bound to `A` and one image of another type with `thumb` bound to
`B`. -/
def thumbDemoEpisode : JValue :=
  .jobj [("included", .jobj [("images", .jarr
    [.jobj [("type", .jstr "episode_image"),
            ("attributes", .jobj [("thumb", .jstr "A")])],
     .jobj [("type", .jstr "other"),
            ("attributes", .jobj [("thumb", .jstr "B")])]])])]

/-- C7 witness: the spec's test vector yields exactly one thumbnail, with
id `thumb` and url `A`; the `other`-typed image contributes nothing. -/
theorem c7_thumbnail_extraction_witness :
    extractThumbnails thumbDemoEpisode =
      [{ id := "thumb", url := .jstr "A" }] ∧
    specThumbnails thumbDemoEpisode =
      [{ id := "thumb", url := .jstr "A" }] := by
  have hwf : ∀ image ∈ episodeImages thumbDemoEpisode,
      stringUrls image = true := by
    intro image him
    have hl : episodeImages thumbDemoEpisode =
        [.jobj [("type", .jstr "episode_image"),
                ("attributes", .jobj [("thumb", .jstr "A")])],
         .jobj [("type", .jstr "other"),
                ("attributes", .jobj [("thumb", .jstr "B")])]] := rfl
    rw [hl, List.mem_cons, List.mem_singleton] at him
    rcases him with rfl | rfl <;> rfl
  have h := c7_thumbnail_extraction thumbDemoEpisode hwf
  exact ⟨by rw [h.1]; rfl, rfl⟩


/-- C8, counterexample: with attributes binding title to the empty string —
a present value — and display_title to X, the code returns X, not the
present title. -/
theorem c8_title_present_counterexample :
    (JValue.jobj [("title", .jstr ""), ("display_title", .jstr "X")]).get
        "title" = some (.jstr "") ∧
    extractTitle (.jobj [("title", .jstr ""), ("display_title", .jstr "X")]) =
      some (.jstr "X") ∧
    JValue.jstr "X" ≠ JValue.jstr "" :=
  ⟨rfl, rfl, by simp⟩

/-- C8 as amended: the returned record's title equals attributes.title when
present with a truthy (non-empty) value and otherwise falls back to
attributes.display_title — so display_title X with no title yields X — and
the description equals attributes.description when present and truthy and
otherwise equals attributes.caption's value. -/
theorem c8_title_description_fallback (a : JValue) (display_id : String)
    (episode : JValue) :
    (truthy (a.pyGet "title") = true →
      extractTitle a = some (a.pyGet "title")) ∧
    (truthy (a.pyGet "title") = false →
      extractTitle a = a.get "display_title") ∧
    (∀ s, a.get "title" = none → a.get "display_title" = some (.jstr s) →
      extractTitle a = some (.jstr s)) ∧
    (truthy (a.pyGet "description") = true →
      extractDescription a = a.pyGet "description") ∧
    (truthy (a.pyGet "description") = false →
      extractDescription a = a.pyGet "caption") ∧
    (∀ r, buildRecord display_id episode = some r →
      ∀ attributes, episode.get "attributes" = some attributes →
        extractTitle attributes = some r.title ∧
        r.description = extractDescription attributes) := by
  refine ⟨?_, ?_, ?_, ?_, ?_, ?_⟩
  · intro h
    simp [extractTitle, h]
  · intro h
    simp [extractTitle, h]
  · intro s hn hd
    have h : truthy (a.pyGet "title") = false := by
      simp [JValue.pyGet, JValue.pyGetD, hn, truthy]
    simp [extractTitle, h, hd]
  · intro h
    simp [extractDescription, pyOr, h]
  · intro h
    simp [extractDescription, pyOr, h]
  · intro r hr attributes ha
    simp only [buildRecord, ha] at hr
    cases het : extractTitle attributes with
    | none => rw [het] at hr; simp at hr
    | some t =>
        rw [het] at hr
        cases hid : episode.get "id" with
        | none => rw [hid] at hr; simp at hr
        | some vid =>
            rw [hid] at hr
            simp only [Option.some.injEq] at hr
            subst hr
            exact ⟨rfl, rfl⟩

/-- C8 witness: the spec's example (display_title X, no title) and the
description fallback to a caption, each on a concrete attributes object. -/
theorem c8_title_description_fallback_witness :
    extractTitle (.jobj [("display_title", .jstr "X")]) =
      some (.jstr "X") ∧
    extractDescription (.jobj [("caption", .jstr "C")]) = .jstr "C" := by
  have h := c8_title_description_fallback
    (.jobj [("display_title", .jstr "X")]) "d" .jnull
  have h2 := c8_title_description_fallback
    (.jobj [("caption", .jstr "C")]) "d" .jnull
  exact ⟨h.2.2.1 "X" rfl rfl, by rw [h2.2.2.2.2.1 (by decide)]; rfl⟩


/-- Once the accumulator of the digit fold is absent it stays absent. -/
theorem foldl_digitStep_none :
    ∀ cs : List Char, cs.foldl digitStep none = none
  | [] => rfl
  | _ :: cs => foldl_digitStep_none cs

/-- A character list containing a non-digit parses to nothing, whatever the
accumulator. -/
theorem foldl_digitStep_eq_none {c : Char}
    (hc : ¬(48 ≤ c.toNat ∧ c.toNat ≤ 57)) :
    ∀ (cs : List Char) (acc : Option Nat), c ∈ cs →
      cs.foldl digitStep acc = none := by
  intro cs
  induction cs with
  | nil => intro acc h; cases h
  | cons d rest ih =>
      intro acc h
      rcases List.mem_cons.mp h with rfl | hr
      · have hd : digitStep acc c = none := by
          cases acc with
          | none => rfl
          | some n => simp only [digitStep, if_neg hc]
        simp only [List.foldl_cons, hd, foldl_digitStep_none]
      · simp only [List.foldl_cons]
        exact ih _ hr

/-- A string of characters containing a non-digit has no decimal value. -/
theorem decimalNat?_eq_none {c : Char}
    (hc : ¬(48 ≤ c.toNat ∧ c.toNat ≤ 57)) (cs : List Char) (hmem : c ∈ cs) :
    decimalNat? cs = none := by
  unfold decimalNat?
  by_cases he : cs.isEmpty
  · rw [if_pos he]
  · rw [if_neg he]
    exact foldl_digitStep_eq_none hc cs (some 0) hmem

/-- A string containing a character that is neither a digit nor a leading
minus has no permissive integer value. -/
theorem int_or_none_str_eq_none {c : Char} {s : String}
    (hmem : c ∈ s.toList) (hc : ¬(48 ≤ c.toNat ∧ c.toNat ≤ 57))
    (hminus : c ≠ '-') :
    int_or_none (.jstr s) = none := by
  cases hs : s.toList with
  | nil => rw [hs] at hmem; cases hmem
  | cons d rest =>
      rw [hs] at hmem
      by_cases hd : d = '-'
      · subst hd
        have hcr : c ∈ rest := by
          rcases List.mem_cons.mp hmem with rfl | hr
          · exact absurd rfl hminus
          · exact hr
        simp only [int_or_none, hs, if_pos rfl,
          decimalNat?_eq_none hc rest hcr, if_true]
        rfl
      · simp only [int_or_none, hs, if_neg hd,
          decimalNat?_eq_none hc (d :: rest) hmem]
        rfl

/-- C9: season_number, episode_number and duration come from the
permissive parse of attributes season_number, number and length: a missing
(`jnull`) or non-numeric source yields an absent field, and the success of
the whole record build is `requiredShape`, which reads no numeric field, so
resolveEpisode never fails on their account. -/
theorem c9_numeric_fields_permissive (display_id : String)
    (episode : JValue) :
    (buildRecord display_id episode).isSome = requiredShape episode ∧
    (∀ r, buildRecord display_id episode = some r →
      ∀ attributes, episode.get "attributes" = some attributes →
        r.season_number = int_or_none (attributes.pyGet "season_number") ∧
        r.episode_number = int_or_none (attributes.pyGet "number") ∧
        r.duration = int_or_none (attributes.pyGet "length")) ∧
    int_or_none .jnull = none ∧
    (∀ b, int_or_none (.jbool b) = none) ∧
    (∀ elems, int_or_none (.jarr elems) = none) ∧
    (∀ fields, int_or_none (.jobj fields) = none) ∧
    (∀ (c : Char) (s : String), c ∈ s.toList →
      ¬(48 ≤ c.toNat ∧ c.toNat ≤ 57) → c ≠ '-' →
      int_or_none (.jstr s) = none) := by
  refine ⟨?_, ?_, rfl, fun b => rfl, fun elems => rfl, fun fields => rfl,
    fun c s hmem hc hminus => int_or_none_str_eq_none hmem hc hminus⟩
  · cases ha : episode.get "attributes" with
    | none => simp [buildRecord, requiredShape, ha]
    | some attributes =>
        cases het : extractTitle attributes with
        | none => simp [buildRecord, requiredShape, ha, het]
        | some t =>
            cases hid : episode.get "id" with
            | none => simp [buildRecord, requiredShape, ha, het, hid]
            | some vid => simp [buildRecord, requiredShape, ha, het, hid]
  · intro r hr attributes ha
    simp only [buildRecord, ha] at hr
    cases het : extractTitle attributes with
    | none => rw [het] at hr; simp at hr
    | some t =>
        rw [het] at hr
        cases hid : episode.get "id" with
        | none => rw [hid] at hr; simp at hr
        | some vid =>
            rw [hid] at hr
            simp only [Option.some.injEq] at hr
            subst hr
            exact ⟨rfl, rfl, rfl⟩

/-- The attributes object of the C9 demo episode: a non-numeric
season_number, no `number` key, and a numeric length. -/
def c9DemoAttrs : JValue :=
  .jobj [("title", .jstr "T"), ("season_number", .jstr "abc"),
         ("length", .jnum 300)]

/-- The C9 demo episode. -/
def c9DemoEpisode : JValue :=
  .jobj [("attributes", c9DemoAttrs), ("id", .jnum 9156)]

/-- C9 witness: on the demo episode the build succeeds while season_number
(non-numeric string) and episode_number (missing) are absent and duration
is 300. -/
theorem c9_numeric_fields_permissive_witness :
    (buildRecord "d" c9DemoEpisode).isSome = requiredShape c9DemoEpisode ∧
    requiredShape c9DemoEpisode = true ∧
    (buildRecord "d" c9DemoEpisode).map
        (fun r => (r.season_number, r.episode_number, r.duration)) =
      some (none, none, some 300) := by
  have h := c9_numeric_fields_permissive "d" c9DemoEpisode
  refine ⟨h.1, rfl, ?_⟩
  cases hb : buildRecord "d" c9DemoEpisode with
  | none =>
      have h1 := h.1
      rw [hb] at h1
      exact absurd h1.symm (by decide)
  | some r =>
      have hf := h.2.1 r hb c9DemoAttrs rfl
      rw [Option.map_some', hf.1, hf.2.1, hf.2.2]
      rfl

/-- C10: the title fallback to display_title is taken not only when
attributes.title is absent but whenever its value is falsy (for instance
the empty string); and when the title is absent or falsy and display_title
is also absent, the record build fails (missing-key lookup, Python
KeyError) instead of returning a record with a missing title. -/
theorem c10_title_falsy_and_missing (a : JValue) (display_id : String)
    (episode : JValue) :
    (∀ t, a.get "title" = some t → truthy t = false →
      extractTitle a = a.get "display_title") ∧
    (a.get "title" = some (.jstr "") →
      extractTitle a = a.get "display_title") ∧
    (truthy (a.pyGet "title") = false → a.get "display_title" = none →
      extractTitle a = none) ∧
    (∀ attributes, episode.get "attributes" = some attributes →
      truthy (attributes.pyGet "title") = false →
      attributes.get "display_title" = none →
      buildRecord display_id episode = none) := by
  refine ⟨?_, ?_, ?_, ?_⟩
  · intro t ht htr
    have h : truthy (a.pyGet "title") = false := by
      simp [JValue.pyGet, JValue.pyGetD, ht, htr]
    simp [extractTitle, h]
  · intro ht
    have h : truthy (a.pyGet "title") = false := by
      simp [JValue.pyGet, JValue.pyGetD, ht, truthy]
    simp [extractTitle, h]
  · intro h hd
    simp [extractTitle, h, hd]
  · intro attributes ha htr hd
    have het : extractTitle attributes = none := by
      simp [extractTitle, htr, hd]
    simp [buildRecord, ha, het]

/-- C10 witness: a present empty title with display_title X falls back to
X, and an episode whose attributes hold only an empty title fails the
build. -/
theorem c10_title_falsy_and_missing_witness :
    extractTitle (.jobj [("title", .jstr ""), ("display_title", .jstr "X")]) =
      some (.jstr "X") ∧
    buildRecord "d" (.jobj [("attributes", .jobj [("title", .jstr "")]),
                            ("id", .jnum 1)]) = none := by
  have h := c10_title_falsy_and_missing
    (.jobj [("title", .jstr ""), ("display_title", .jstr "X")]) "d"
    (.jobj [("attributes", .jobj [("title", .jstr "")]), ("id", .jnum 1)])
  exact ⟨by rw [h.1 (.jstr "") rfl (by decide)]; rfl,
         h.2.2.2 (.jobj [("title", .jstr "")]) rfl (by decide) rfl⟩

end RT
